import Mathlib

/-!
Verification of the VeroBrix analysis-orchestration core
(`verobrix_launcher.py`) and of the HTML text cleaner (`clean_html.py`).

The launcher's collaborators (situation interpreter, JARVIS/FRIDAY agents,
remedy synthesizer) live outside this repository's source tree, so they are
modelled as abstract functions bundled in a `Collaborators` record; the
orchestration, recommendation derivation, persistence wrapper and summary
printing are translated directly from the Python source.

Python dicts holding fixed keys are modelled as Lean structures whose fields
are exactly the keys the source reads or writes.  Python strings are Lean
`String`s, except in the `clean_html` development, which works on `List Char`
(the character sequence of the string) to make the whitespace reasoning
explicit.
-/

/-- `situation['urgency']` : the launcher reads only `['level']`. -/
structure Urgency where
  level : String
  rationale : String
deriving DecidableEq, Repr

/-- `situation['jurisdiction']` with `['primary']` and `['secondary']`. -/
structure Jurisdiction where
  primary : String
  secondary : List String
deriving DecidableEq, Repr

/-- `situation['entities']` with `['people']` and `['organizations']`. -/
structure Entities where
  people : List String
  organizations : List String
deriving DecidableEq, Repr

/-- The situation record produced by `interpret_situation`; the launcher reads
`type`, `urgency`, `jurisdiction`, `entities` and `legal_framework`. -/
structure Situation where
  type : String
  urgency : Urgency
  jurisdiction : Jurisdiction
  entities : Entities
  legal_framework : String
deriving DecidableEq, Repr

/-- A detected contradiction: the launcher accepts either a bare string or a
structured record whose `description` key may be absent
(`print_analysis_summary`, lines 220-224 of `verobrix_launcher.py`). -/
inductive Contradiction where
  | bare (text : String)
  | record (description : Option String)
deriving DecidableEq, Repr

/-- One legal risk: the summary printer reads `risk['level']` and
`risk['description']`. -/
structure LegalRisk where
  level : String
  description : String
deriving DecidableEq, Repr

/-- The legal summary returned by `generate_legal_summary`; the launcher reads
`risk_level` and `tone_summary`. -/
structure LegalSummary where
  risk_level : String
  tone_summary : String
deriving DecidableEq, Repr

/-- The remedy record returned by `synthesize_remedy`; the launcher reads
`remedy.get('contradictions')` (a missing key behaves like an empty list) and
`remedy['legal_strategies']`. -/
structure Remedy where
  contradictions : List Contradiction
  legal_strategies : List String
deriving DecidableEq, Repr

/-- The recommendation set built by `_generate_recommendations`. -/
structure Recommendations where
  immediate_actions : List String
  short_term_actions : List String
  long_term_actions : List String
  warnings : List String
  opportunities : List String
deriving DecidableEq, Repr

/-- One entry of the static `situation_actions` table. -/
structure SituationTypeActions where
  immediate : List String
  short_term : List String
  long_term : List String
deriving DecidableEq, Repr

/-- The static situation-type → actions table of `_generate_recommendations`
(lines 138-154): keys `traffic_stop`, `fee_demand`, `court_summons`. -/
def situation_actions (t : String) : Option SituationTypeActions :=
  if t = "traffic_stop" then
    some { immediate := ["Document all details of the encounter", "Preserve any evidence"],
           short_term := ["Review citation for errors", "Research applicable traffic laws"],
           long_term := ["Consider challenging jurisdiction", "File administrative remedy if applicable"] }
  else if t = "fee_demand" then
    some { immediate := ["Do not pay without challenging authority", "Request fee schedule"],
           short_term := ["Challenge lawful authority for fee", "Demand due process hearing"],
           long_term := ["File administrative appeal", "Consider legal action if rights violated"] }
  else if t = "court_summons" then
    some { immediate := ["Calculate response deadline", "Preserve all rights"],
           short_term := ["File appropriate response", "Challenge jurisdiction if applicable"],
           long_term := ["Prepare defense strategy", "Consider counterclaims if applicable"] }
  else none

/-- `VeroBrixSystem._generate_recommendations` (lines 110-169), translated
rule by rule in source order: each rule conditionally extends the lists of the
accumulated recommendation record. -/
def generate_recommendations (situation : Situation) (legal_summary : LegalSummary)
    (remedy : Remedy) : Recommendations :=
  let recs : Recommendations :=
    { immediate_actions := [], short_term_actions := [], long_term_actions := [],
      warnings := [], opportunities := [] }
  let recs := if situation.urgency.level = "high" then
      { recs with immediate_actions := recs.immediate_actions ++
          ["URGENT: Time-sensitive situation detected",
           "Review all deadlines and timelines immediately",
           "Consider emergency legal consultation"] }
    else recs
  let recs := if legal_summary.risk_level = "HIGH" then
      { recs with
          immediate_actions := recs.immediate_actions ++ ["HIGH RISK: Seek immediate legal counsel"],
          warnings := recs.warnings ++ ["Situation contains high-risk legal elements"] }
    else recs
  let recs := if remedy.contradictions ≠ [] then
      { recs with short_term_actions :=
          recs.short_term_actions ++ ["Challenge contradictory provisions in documents"] }
    else recs
  let recs := match situation_actions situation.type with
    | some actions =>
        { recs with
            immediate_actions := recs.immediate_actions ++ actions.immediate,
            short_term_actions := recs.short_term_actions ++ actions.short_term,
            long_term_actions := recs.long_term_actions ++ actions.long_term }
    | none => recs
  let recs := if legal_summary.tone_summary = "positive" then
      { recs with opportunities := recs.opportunities ++
          ["Document contains favorable language - preserve these terms"] }
    else recs
  let recs := if situation.jurisdiction.primary = "commercial" then
      { recs with opportunities := recs.opportunities ++
          ["Commercial jurisdiction may provide UCC protections"] }
    else recs
  recs

/-- Field-wise characterization of `generate_recommendations`: each list is
the concatenation, in rule-evaluation order, of the contributions of the
rules that fire. -/
theorem generate_recommendations_eq (s : Situation) (l : LegalSummary) (r : Remedy) :
    generate_recommendations s l r =
      { immediate_actions :=
          (if s.urgency.level = "high" then
            ["URGENT: Time-sensitive situation detected",
             "Review all deadlines and timelines immediately",
             "Consider emergency legal consultation"] else []) ++
          (if l.risk_level = "HIGH" then ["HIGH RISK: Seek immediate legal counsel"] else []) ++
          (match situation_actions s.type with
           | some a => a.immediate
           | none => []),
        short_term_actions :=
          (if r.contradictions ≠ [] then ["Challenge contradictory provisions in documents"] else []) ++
          (match situation_actions s.type with
           | some a => a.short_term
           | none => []),
        long_term_actions :=
          (match situation_actions s.type with
           | some a => a.long_term
           | none => []),
        warnings :=
          (if l.risk_level = "HIGH" then ["Situation contains high-risk legal elements"] else []),
        opportunities :=
          (if l.tone_summary = "positive" then
            ["Document contains favorable language - preserve these terms"] else []) ++
          (if s.jurisdiction.primary = "commercial" then
            ["Commercial jurisdiction may provide UCC protections"] else []) } := by
  unfold generate_recommendations
  cases hsa : situation_actions s.type <;>
    simp only [hsa] <;> split_ifs <;> rfl

/-! ### Claims about recommendation derivation -/

/-- C2: with `urgency.level = "high"`, `risk_level = "HIGH"` and
`situation.type = "traffic_stop"`, the derived `immediate_actions` list has
exactly six elements: the three urgency-triggered strings, then the one
risk-triggered string, then the two traffic-stop table strings, in that
concatenation order. -/
theorem C2_high_urgency_high_risk_traffic_stop_immediate_actions
    (s : Situation) (l : LegalSummary) (r : Remedy)
    (hu : s.urgency.level = "high") (hr : l.risk_level = "HIGH")
    (ht : s.type = "traffic_stop") :
    (generate_recommendations s l r).immediate_actions =
      ["URGENT: Time-sensitive situation detected",
       "Review all deadlines and timelines immediately",
       "Consider emergency legal consultation",
       "HIGH RISK: Seek immediate legal counsel",
       "Document all details of the encounter",
       "Preserve any evidence"] ∧
    (generate_recommendations s l r).immediate_actions.length = 6 := by
  rw [generate_recommendations_eq]
  simp [hu, hr, ht, situation_actions]

/-- A concrete situation record used by witnesses. -/
def exampleTrafficSituation : Situation :=
  { type := "traffic_stop",
    urgency := { level := "high", rationale := "deadline" },
    jurisdiction := { primary := "common", secondary := [] },
    entities := { people := [], organizations := [] },
    legal_framework := "common_law" }

/-- Witness for C2 at a concrete input. -/
theorem C2_high_urgency_high_risk_traffic_stop_immediate_actions_witness :
    (generate_recommendations exampleTrafficSituation
        { risk_level := "HIGH", tone_summary := "neutral" }
        { contradictions := [], legal_strategies := [] }).immediate_actions =
      ["URGENT: Time-sensitive situation detected",
       "Review all deadlines and timelines immediately",
       "Consider emergency legal consultation",
       "HIGH RISK: Seek immediate legal counsel",
       "Document all details of the encounter",
       "Preserve any evidence"] ∧
    (generate_recommendations exampleTrafficSituation
        { risk_level := "HIGH", tone_summary := "neutral" }
        { contradictions := [], legal_strategies := [] }).immediate_actions.length = 6 :=
  C2_high_urgency_high_risk_traffic_stop_immediate_actions
    exampleTrafficSituation
    { risk_level := "HIGH", tone_summary := "neutral" }
    { contradictions := [], legal_strategies := [] }
    rfl rfl rfl

/-- C3: recommendation derivation is deterministic: equal input triples give
equal recommendation sets (in the embedding the function is pure by
construction — the Python body performs no I/O and only extends lists of a
dictionary it freshly allocates, never touching its arguments). -/
theorem C3_generate_recommendations_deterministic
    (s₁ s₂ : Situation) (l₁ l₂ : LegalSummary) (r₁ r₂ : Remedy)
    (hs : s₁ = s₂) (hl : l₁ = l₂) (hr : r₁ = r₂) :
    generate_recommendations s₁ l₁ r₁ = generate_recommendations s₂ l₂ r₂ := by
  subst hs; subst hl; subst hr; rfl

/-- Witness for C3 at a concrete input. -/
theorem C3_generate_recommendations_deterministic_witness :
    generate_recommendations exampleTrafficSituation
        { risk_level := "LOW", tone_summary := "positive" }
        { contradictions := [], legal_strategies := [] } =
      generate_recommendations exampleTrafficSituation
        { risk_level := "LOW", tone_summary := "positive" }
        { contradictions := [], legal_strategies := [] } :=
  C3_generate_recommendations_deterministic _ _ _ _ _ _ rfl rfl rfl

/-- C4: for every pair of derivation inputs that agree on the summary's
`risk_level`, the remedy's `contradictions`, `situation.type`, the summary's
`tone_summary` and the jurisdiction — while everything else (entities, legal
framework, urgency rationale, legal strategies, …) may differ — with the
first input's `urgency.level = "high"` and the second's `"low"`, the two
derived sets differ only in the three urgency-triggered strings at the front
of `immediate_actions`; every other derived list is identical. -/
theorem C4_urgency_toggle_changes_only_urgency_actions
    (s₁ s₂ : Situation) (l₁ l₂ : LegalSummary) (r₁ r₂ : Remedy)
    (hrisk : l₁.risk_level = l₂.risk_level)
    (hcon : r₁.contradictions = r₂.contradictions)
    (htype : s₁.type = s₂.type)
    (htone : l₁.tone_summary = l₂.tone_summary)
    (hjur : s₁.jurisdiction = s₂.jurisdiction)
    (h₁ : s₁.urgency.level = "high") (h₂ : s₂.urgency.level = "low") :
    (generate_recommendations s₁ l₁ r₁).immediate_actions =
      ["URGENT: Time-sensitive situation detected",
       "Review all deadlines and timelines immediately",
       "Consider emergency legal consultation"] ++
      (generate_recommendations s₂ l₂ r₂).immediate_actions ∧
    (generate_recommendations s₁ l₁ r₁).short_term_actions =
      (generate_recommendations s₂ l₂ r₂).short_term_actions ∧
    (generate_recommendations s₁ l₁ r₁).long_term_actions =
      (generate_recommendations s₂ l₂ r₂).long_term_actions ∧
    (generate_recommendations s₁ l₁ r₁).warnings =
      (generate_recommendations s₂ l₂ r₂).warnings ∧
    (generate_recommendations s₁ l₁ r₁).opportunities =
      (generate_recommendations s₂ l₂ r₂).opportunities := by
  rw [generate_recommendations_eq, generate_recommendations_eq]
  simp [hrisk, hcon, htype, htone, hjur, h₁, h₂]

/-- First concrete C4 input: high urgency, with populated entities, a
common-law framework and a remedy carrying strategies. -/
def exampleC4High : Situation :=
  { type := "traffic_stop",
    urgency := { level := "high", rationale := "court date tomorrow" },
    jurisdiction := { primary := "commercial", secondary := ["state"] },
    entities := { people := ["Alice"], organizations := ["DMV"] },
    legal_framework := "common_law" }

/-- Second concrete C4 input: low urgency, agreeing with `exampleC4High` only
on type and jurisdiction; entities, framework and rationale differ. -/
def exampleC4Low : Situation :=
  { type := "traffic_stop",
    urgency := { level := "low", rationale := "" },
    jurisdiction := { primary := "commercial", secondary := ["state"] },
    entities := { people := [], organizations := [] },
    legal_framework := "UCC" }

/-- Witness for C4 at a concrete pair of inputs that differ in entities,
legal framework, urgency rationale and legal strategies. -/
theorem C4_urgency_toggle_changes_only_urgency_actions_witness :
    (generate_recommendations exampleC4High
        { risk_level := "HIGH", tone_summary := "positive" }
        { contradictions := [Contradiction.bare "c1"],
          legal_strategies := ["challenge jurisdiction"] }).immediate_actions =
      ["URGENT: Time-sensitive situation detected",
       "Review all deadlines and timelines immediately",
       "Consider emergency legal consultation"] ++
      (generate_recommendations exampleC4Low
        { risk_level := "HIGH", tone_summary := "positive" }
        { contradictions := [Contradiction.bare "c1"],
          legal_strategies := [] }).immediate_actions ∧
    (generate_recommendations exampleC4High
        { risk_level := "HIGH", tone_summary := "positive" }
        { contradictions := [Contradiction.bare "c1"],
          legal_strategies := ["challenge jurisdiction"] }).short_term_actions =
      (generate_recommendations exampleC4Low
        { risk_level := "HIGH", tone_summary := "positive" }
        { contradictions := [Contradiction.bare "c1"],
          legal_strategies := [] }).short_term_actions ∧
    (generate_recommendations exampleC4High
        { risk_level := "HIGH", tone_summary := "positive" }
        { contradictions := [Contradiction.bare "c1"],
          legal_strategies := ["challenge jurisdiction"] }).long_term_actions =
      (generate_recommendations exampleC4Low
        { risk_level := "HIGH", tone_summary := "positive" }
        { contradictions := [Contradiction.bare "c1"],
          legal_strategies := [] }).long_term_actions ∧
    (generate_recommendations exampleC4High
        { risk_level := "HIGH", tone_summary := "positive" }
        { contradictions := [Contradiction.bare "c1"],
          legal_strategies := ["challenge jurisdiction"] }).warnings =
      (generate_recommendations exampleC4Low
        { risk_level := "HIGH", tone_summary := "positive" }
        { contradictions := [Contradiction.bare "c1"],
          legal_strategies := [] }).warnings ∧
    (generate_recommendations exampleC4High
        { risk_level := "HIGH", tone_summary := "positive" }
        { contradictions := [Contradiction.bare "c1"],
          legal_strategies := ["challenge jurisdiction"] }).opportunities =
      (generate_recommendations exampleC4Low
        { risk_level := "HIGH", tone_summary := "positive" }
        { contradictions := [Contradiction.bare "c1"],
          legal_strategies := [] }).opportunities :=
  C4_urgency_toggle_changes_only_urgency_actions exampleC4High exampleC4Low
    { risk_level := "HIGH", tone_summary := "positive" }
    { risk_level := "HIGH", tone_summary := "positive" }
    { contradictions := [Contradiction.bare "c1"],
      legal_strategies := ["challenge jurisdiction"] }
    { contradictions := [Contradiction.bare "c1"], legal_strategies := [] }
    rfl rfl rfl rfl rfl rfl rfl

/-- C5: for `situation.type = "fee_demand"`, `immediate_actions` consists of
whatever the urgency and risk rules contributed, followed by exactly the two
fixed fee-demand strings, in that order. -/
theorem C5_fee_demand_immediate_actions
    (s : Situation) (l : LegalSummary) (r : Remedy) (ht : s.type = "fee_demand") :
    (generate_recommendations s l r).immediate_actions =
      (if s.urgency.level = "high" then
        ["URGENT: Time-sensitive situation detected",
         "Review all deadlines and timelines immediately",
         "Consider emergency legal consultation"] else []) ++
      (if l.risk_level = "HIGH" then ["HIGH RISK: Seek immediate legal counsel"] else []) ++
      ["Do not pay without challenging authority", "Request fee schedule"] := by
  rw [generate_recommendations_eq]
  simp [ht, situation_actions]

/-- Witness for C5 at a concrete input. -/
theorem C5_fee_demand_immediate_actions_witness :
    (generate_recommendations { exampleTrafficSituation with type := "fee_demand" }
        { risk_level := "LOW", tone_summary := "neutral" }
        { contradictions := [], legal_strategies := [] }).immediate_actions =
      (if ({ exampleTrafficSituation with type := "fee_demand" } : Situation).urgency.level = "high" then
        ["URGENT: Time-sensitive situation detected",
         "Review all deadlines and timelines immediately",
         "Consider emergency legal consultation"] else []) ++
      (if ("LOW" : String) = "HIGH" then ["HIGH RISK: Seek immediate legal counsel"] else []) ++
      ["Do not pay without challenging authority", "Request fee schedule"] :=
  C5_fee_demand_immediate_actions { exampleTrafficSituation with type := "fee_demand" }
    { risk_level := "LOW", tone_summary := "neutral" }
    { contradictions := [], legal_strategies := [] } rfl

/-- C9: the derived `warnings` list is exactly the single fixed high-risk
warning string when `risk_level = "HIGH"` and empty otherwise; no other rule
contributes a warning.  In particular it is non-empty iff the risk level is
`"HIGH"`. -/
theorem C9_warnings_only_from_high_risk (s : Situation) (l : LegalSummary) (r : Remedy) :
    (generate_recommendations s l r).warnings =
      if l.risk_level = "HIGH" then ["Situation contains high-risk legal elements"] else [] := by
  rw [generate_recommendations_eq]

/-! ### The analysis orchestrator -/

/-- The remedy-request projection built at lines 71-79 of
`verobrix_launcher.py` and passed to `synthesize_remedy`.  `Tone` is the
opaque result type of `interpret_tone`. -/
structure RemedyInput (Tone : Type) where
  type : String
  risk_level : String
  contradictions : List Contradiction
  tone_analysis : Tone
  urgency : Urgency
  jurisdiction : Jurisdiction
  legal_framework : String
deriving DecidableEq, Repr

/-- The collaborator modules imported by the launcher.  Their result types
`Clause` (one extracted clause), `Tone` (tone analysis), `Structure` (legal
structure) and `Ctx` (the optional situation context) are opaque to the
orchestrator, which only passes them along. -/
structure Collaborators (Clause Tone Structure Ctx : Type) where
  interpret_situation : String → Option Ctx → Situation
  extract_clauses : String → List Clause
  detect_contradictions : List Clause → List Contradiction
  analyze_legal_structure : String → Structure
  interpret_tone : String → Tone
  analyze_legal_risk : String → List LegalRisk
  generate_legal_summary : String → Tone → List LegalRisk → LegalSummary
  synthesize_remedy : RemedyInput Tone → Remedy

/-- The `legal_analysis` sub-record of the compiled results (lines 92-99). -/
structure LegalAnalysis (Clause Tone Structure : Type) where
  clauses : List Clause
  contradictions : List Contradiction
  legal_structure : Structure
  tone_analysis : Tone
  legal_risks : List LegalRisk
  legal_summary : LegalSummary
deriving DecidableEq, Repr

/-- The complete analysis record compiled at lines 84-102. -/
structure AnalysisResult (Clause Tone Structure Ctx : Type) where
  session_id : String
  timestamp : String
  input_raw_text : String
  input_context : Option Ctx
  situation_analysis : Situation
  legal_analysis : LegalAnalysis Clause Tone Structure
  remedy : Remedy
  recommendations : Recommendations
deriving DecidableEq, Repr

/-- `VeroBrixSystem._save_analysis_results` (lines 171-179): attempts the file
write and converts either outcome into a provenance-log message; an exception
from the write (`Except.error`) is caught and logged, never re-raised.  The
write itself is external I/O, represented by its outcome `writeOutcome`. -/
def save_analysis_results (session_id : String) (writeOutcome : Except String Unit) : String :=
  match writeOutcome with
  | Except.ok _ =>
      "Analysis results saved to output/verobrix_analysis_" ++ session_id ++ ".json"
  | Except.error e => "Error saving results: " ++ e

/-- `VeroBrixSystem.analyze_situation` (lines 31-108).  `session_id` and the
wall-clock `timestamp` are ambient state of the system object, passed in
explicitly; `writeOutcome` is the outcome of the persistence write attempted
at line 105.  Returns the compiled results together with the log message
produced by the persistence step. -/
def analyze_situation {Clause Tone Structure Ctx : Type}
    (C : Collaborators Clause Tone Structure Ctx)
    (session_id timestamp : String)
    (input_text : String) (situation_context : Option Ctx)
    (writeOutcome : Except String Unit) :
    AnalysisResult Clause Tone Structure Ctx × String :=
  let situation := C.interpret_situation input_text situation_context
  let clauses := C.extract_clauses input_text
  let contradictions := C.detect_contradictions clauses
  let legal_structure := C.analyze_legal_structure input_text
  let tone_analysis := C.interpret_tone input_text
  let legal_risks := C.analyze_legal_risk input_text
  let legal_summary := C.generate_legal_summary input_text tone_analysis legal_risks
  let remedy_input : RemedyInput Tone :=
    { type := situation.type,
      risk_level := legal_summary.risk_level,
      contradictions := contradictions,
      tone_analysis := tone_analysis,
      urgency := situation.urgency,
      jurisdiction := situation.jurisdiction,
      legal_framework := situation.legal_framework }
  let remedy := C.synthesize_remedy remedy_input
  let results : AnalysisResult Clause Tone Structure Ctx :=
    { session_id := session_id,
      timestamp := timestamp,
      input_raw_text := input_text,
      input_context := situation_context,
      situation_analysis := situation,
      legal_analysis :=
        { clauses := clauses,
          contradictions := contradictions,
          legal_structure := legal_structure,
          tone_analysis := tone_analysis,
          legal_risks := legal_risks,
          legal_summary := legal_summary },
      remedy := remedy,
      recommendations := generate_recommendations situation legal_summary remedy }
  (results, save_analysis_results session_id writeOutcome)

/-- C1: the pipeline's data flow is exactly as specified: each facet of the
returned record is the corresponding collaborator applied to exactly its
claimed inputs — situation interpretation to the text and context, clause
extraction to the raw text, contradiction detection to the extracted clauses,
structure/tone/risk analysis to the raw text, summary generation to the raw
text plus tone plus risks, and remedy synthesis to precisely the
{type, risk_level, contradictions, tone_analysis, urgency, jurisdiction,
legal_framework} projection. -/
theorem C1_pipeline_data_flow {Clause Tone Structure Ctx : Type}
    (C : Collaborators Clause Tone Structure Ctx)
    (sid ts text : String) (ctx : Option Ctx) (w : Except String Unit) :
    (analyze_situation C sid ts text ctx w).1.situation_analysis =
        C.interpret_situation text ctx ∧
    (analyze_situation C sid ts text ctx w).1.legal_analysis.clauses =
        C.extract_clauses text ∧
    (analyze_situation C sid ts text ctx w).1.legal_analysis.contradictions =
        C.detect_contradictions (C.extract_clauses text) ∧
    (analyze_situation C sid ts text ctx w).1.legal_analysis.legal_structure =
        C.analyze_legal_structure text ∧
    (analyze_situation C sid ts text ctx w).1.legal_analysis.tone_analysis =
        C.interpret_tone text ∧
    (analyze_situation C sid ts text ctx w).1.legal_analysis.legal_risks =
        C.analyze_legal_risk text ∧
    (analyze_situation C sid ts text ctx w).1.legal_analysis.legal_summary =
        C.generate_legal_summary text (C.interpret_tone text) (C.analyze_legal_risk text) ∧
    (analyze_situation C sid ts text ctx w).1.remedy =
        C.synthesize_remedy
          { type := (C.interpret_situation text ctx).type,
            risk_level := (C.generate_legal_summary text (C.interpret_tone text)
                             (C.analyze_legal_risk text)).risk_level,
            contradictions := C.detect_contradictions (C.extract_clauses text),
            tone_analysis := C.interpret_tone text,
            urgency := (C.interpret_situation text ctx).urgency,
            jurisdiction := (C.interpret_situation text ctx).jurisdiction,
            legal_framework := (C.interpret_situation text ctx).legal_framework } ∧
    (analyze_situation C sid ts text ctx w).1.recommendations =
        generate_recommendations (C.interpret_situation text ctx)
          (C.generate_legal_summary text (C.interpret_tone text) (C.analyze_legal_risk text))
          (C.synthesize_remedy
            { type := (C.interpret_situation text ctx).type,
              risk_level := (C.generate_legal_summary text (C.interpret_tone text)
                               (C.analyze_legal_risk text)).risk_level,
              contradictions := C.detect_contradictions (C.extract_clauses text),
              tone_analysis := C.interpret_tone text,
              urgency := (C.interpret_situation text ctx).urgency,
              jurisdiction := (C.interpret_situation text ctx).jurisdiction,
              legal_framework := (C.interpret_situation text ctx).legal_framework }) := by
  refine ⟨rfl, rfl, rfl, rfl, rfl, rfl, rfl, rfl, rfl⟩

/-- C6: a persistence failure is absorbed: `analyze_situation` still returns,
the failing write only changes the logged message (to the caught-error form),
and the returned analysis record is identical to the one returned when the
write succeeds. -/
theorem C6_persistence_failure_does_not_change_result
    {Clause Tone Structure Ctx : Type}
    (C : Collaborators Clause Tone Structure Ctx)
    (sid ts text : String) (ctx : Option Ctx)
    (w₁ w₂ : Except String Unit) :
    (analyze_situation C sid ts text ctx w₁).1 =
      (analyze_situation C sid ts text ctx w₂).1 ∧
    (∀ e, save_analysis_results sid (Except.error e) = "Error saving results: " ++ e) := by
  exact ⟨rfl, fun e => rfl⟩

/-! ### Summary printing -/

/-- The separator `"="*60` used by `print_analysis_summary`. -/
def sep60 : String := String.mk (List.replicate 60 '=')

/-- Python's `str.upper()`, modelled character-wise (ASCII case mapping). -/
def pyUpper (s : String) : String := String.mk (s.data.map Char.toUpper)

/-- One numbered contradiction line (lines 220-224): a structured record is
rendered through `contradiction.get('description', 'Unknown contradiction')`,
a bare string is rendered verbatim. -/
def contradiction_line (i : Nat) (c : Contradiction) : String :=
  match c with
  | Contradiction.record d => "  " ++ (toString i ++ (". " ++ d.getD "Unknown contradiction"))
  | Contradiction.bare s => "  " ++ (toString i ++ (". " ++ s))

/-- The body of `for i, contradiction in enumerate(contradictions, 1)`. -/
def contradiction_item_lines (i : Nat) : List Contradiction → List String
  | [] => []
  | c :: rest => contradiction_line i c :: contradiction_item_lines (i + 1) rest

/-- The contradictions block (lines 217-224): printed only when the list is
non-empty. -/
def contradiction_section (cs : List Contradiction) : List String :=
  if cs ≠ [] then
    ("\nCONTRADICTIONS DETECTED: " ++ toString cs.length) :: contradiction_item_lines 1 cs
  else []

/-- One legal-risk line (line 231). -/
def risk_line (k : LegalRisk) : String :=
  "  - " ++ (k.level ++ (" RISK: " ++ k.description))

/-- The legal-risks block (lines 227-231). -/
def risk_section (ks : List LegalRisk) : List String :=
  if ks ≠ [] then
    ("\nLEGAL RISKS IDENTIFIED: " ++ toString ks.length) :: ks.map risk_line
  else []

/-- The immediate-actions block (lines 234-238). -/
def immediate_section (acts : List String) : List String :=
  if acts ≠ [] then
    "\nIMMEDIATE ACTIONS REQUIRED:" :: acts.map (fun a => "  • " ++ a)
  else []

/-- The warnings block (lines 241-245). -/
def warning_section (ws : List String) : List String :=
  if ws ≠ [] then
    "\nWARNINGS:" :: ws.map (fun w => "  ⚠️  " ++ w)
  else []

/-- The legal-strategies block (lines 248-252). -/
def strategy_section (ss : List String) : List String :=
  if ss ≠ [] then
    "\nRECOMMENDED LEGAL STRATEGIES:" :: ss.map (fun t => "  • " ++ t)
  else []

/-- `VeroBrixSystem.print_analysis_summary` (lines 190-254), as the list of
printed lines, one `print` call per element, in output order. -/
def print_analysis_summary {Clause Tone Structure Ctx : Type}
    (results : AnalysisResult Clause Tone Structure Ctx) : List String :=
  ["\n" ++ sep60,
   "VEROBRIX LEGAL ANALYSIS SUMMARY",
   sep60,
   "Session ID: " ++ results.session_id,
   "Analysis Time: " ++ results.timestamp,
   "Situation Type: " ++ pyUpper results.situation_analysis.type,
   "Risk Level: " ++ results.legal_analysis.legal_summary.risk_level,
   "Urgency: " ++ pyUpper results.situation_analysis.urgency.level,
   "Primary Jurisdiction: " ++ pyUpper results.situation_analysis.jurisdiction.primary]
  ++ (if results.situation_analysis.jurisdiction.secondary ≠ [] then
        ["Secondary Jurisdictions: " ++
          pyUpper (String.intercalate ", " results.situation_analysis.jurisdiction.secondary)]
      else [])
  ++ (if results.situation_analysis.entities.people ≠ [] then
        ["People Involved: " ++ String.intercalate ", " results.situation_analysis.entities.people]
      else [])
  ++ (if results.situation_analysis.entities.organizations ≠ [] then
        ["Organizations: " ++
          String.intercalate ", " results.situation_analysis.entities.organizations]
      else [])
  ++ contradiction_section results.legal_analysis.contradictions
  ++ risk_section results.legal_analysis.legal_risks
  ++ immediate_section results.recommendations.immediate_actions
  ++ warning_section results.recommendations.warnings
  ++ strategy_section results.remedy.legal_strategies
  ++ ["\n" ++ sep60]

/-- Position of each contradiction item inside the enumerated block. -/
theorem contradiction_item_lines_get (cs : List Contradiction) (i j : Nat)
    (h : j < cs.length) :
    (contradiction_item_lines i cs)[j]? = some (contradiction_line (i + j) cs[j]) := by
  induction cs generalizing i j with
  | nil => exact absurd h (Nat.not_lt_zero j)
  | cons c rest ih =>
    cases j with
    | zero => simp [contradiction_item_lines]
    | succ j' =>
      have h' : j' < rest.length := Nat.lt_of_succ_lt_succ h
      simp only [contradiction_item_lines, List.getElem?_cons_succ]
      rw [ih (i + 1) j' h']
      have harith : i + 1 + j' = i + (j' + 1) := by omega
      simp [harith]

/-- C7: in the printed contradictions block, the line at position `j + 1`
(after the header) renders the `j`-th contradiction: a bare string verbatim,
a structured record via its `description` field, and the fixed placeholder
`"Unknown contradiction"` when the description is absent. -/
theorem C7_contradiction_rendering (cs : List Contradiction) (j : Nat)
    (h : j < cs.length) :
    (contradiction_section cs)[j + 1]? =
      some ("  " ++ (toString (j + 1) ++ (". " ++
        match cs[j] with
        | Contradiction.bare s => s
        | Contradiction.record d => d.getD "Unknown contradiction"))) := by
  have hne : cs ≠ [] := by
    intro hc
    rw [hc] at h
    exact absurd h (Nat.not_lt_zero j)
  unfold contradiction_section
  rw [if_pos hne, List.getElem?_cons_succ, contradiction_item_lines_get cs 1 j h]
  have harith : 1 + j = j + 1 := by omega
  rw [harith]
  cases hc : cs[j] <;> simp [contradiction_line]

/-- Witness for C7 at a concrete mixed contradiction list: a bare string, a
record with a description, and a record without one. -/
theorem C7_contradiction_rendering_witness :
    (contradiction_section
        [Contradiction.bare "clause 2 conflicts with clause 7",
         Contradiction.record (some "payment terms disagree"),
         Contradiction.record none])[2 + 1]? =
      some ("  " ++ (toString (2 + 1) ++ (". " ++ "Unknown contradiction"))) :=
  C7_contradiction_rendering
    [Contradiction.bare "clause 2 conflicts with clause 7",
     Contradiction.record (some "payment terms disagree"),
     Contradiction.record none] 2 (by decide)

/-! ### C8: empty optional fields produce no section header -/

/-- `strHasPre p l` holds when the printed line `l` starts with the text `p`
(character-wise). -/
def strHasPre (p l : String) : Bool := p.data.isPrefixOf l.data

/-- If `p` does not start `a` and `a` does not start `p`, then `p` does not
start `a ++ s` for any continuation `s`. -/
theorem isPrefixOf_append_false (p a s : List Char)
    (h1 : p.isPrefixOf a = false) (h2 : a.isPrefixOf p = false) :
    p.isPrefixOf (a ++ s) = false := by
  induction a generalizing p with
  | nil => simp [List.isPrefixOf] at h2
  | cons y a' ih =>
    cases p with
    | nil => simp [List.isPrefixOf] at h1
    | cons x p' =>
      simp only [List.cons_append, List.isPrefixOf, Bool.and_eq_false_iff] at h1 h2 ⊢
      rcases h1 with h1 | h1
      · exact Or.inl h1
      · rcases h2 with h2 | h2
        · refine Or.inl ?_
          cases hxy : x == y
          · rfl
          · have hx : x = y := eq_of_beq hxy
            subst hx
            simp at h2
        · exact Or.inr (ih p' h1 h2)

/-- String version of `isPrefixOf_append_false`. -/
theorem strHasPre_append_false (p a s : String)
    (h1 : strHasPre p a = false) (h2 : strHasPre a p = false) :
    strHasPre p (a ++ s) = false := by
  unfold strHasPre at *
  rw [String.data_append]
  exact isPrefixOf_append_false _ _ _ h1 h2

/-- Membership in a conditional block that is omitted when the guard fails. -/
theorem mem_ite_nil {α : Type} (c : Prop) [Decidable c] (l : List α) (a : α) :
    a ∈ (if c then l else []) ↔ c ∧ a ∈ l := by
  split <;> simp_all

/-- Every enumerated contradiction line starts with two spaces. -/
theorem contradiction_item_lines_shape (i : Nat) (cs : List Contradiction) :
    ∀ line ∈ contradiction_item_lines i cs, ∃ t, line = "  " ++ t := by
  induction cs generalizing i with
  | nil => intro line hmem; simp [contradiction_item_lines] at hmem
  | cons c rest ih =>
    intro line hmem
    simp only [contradiction_item_lines, List.mem_cons] at hmem
    rcases hmem with rfl | hmem
    · cases c <;> exact ⟨_, rfl⟩
    · exact ih (i + 1) line hmem

/-- Master shape lemma for `print_analysis_summary`: a text `p` that starts
none of the possible line shapes (the shapes of the optional sections only
need to be excluded when the section's source field is non-empty) starts no
printed line. -/
theorem print_summary_line_free {Clause Tone Structure Ctx : Type}
    (r : AnalysisResult Clause Tone Structure Ctx) (p : String)
    (h1 : strHasPre p ("\n" ++ sep60) = false)
    (h2 : strHasPre p "VEROBRIX LEGAL ANALYSIS SUMMARY" = false)
    (h3 : strHasPre p sep60 = false)
    (h4 : ∀ t, strHasPre p ("Session ID: " ++ t) = false)
    (h5 : ∀ t, strHasPre p ("Analysis Time: " ++ t) = false)
    (h6 : ∀ t, strHasPre p ("Situation Type: " ++ t) = false)
    (h7 : ∀ t, strHasPre p ("Risk Level: " ++ t) = false)
    (h8 : ∀ t, strHasPre p ("Urgency: " ++ t) = false)
    (h9 : ∀ t, strHasPre p ("Primary Jurisdiction: " ++ t) = false)
    (h10 : r.situation_analysis.jurisdiction.secondary ≠ [] →
      ∀ t, strHasPre p ("Secondary Jurisdictions: " ++ t) = false)
    (h11 : r.situation_analysis.entities.people ≠ [] →
      ∀ t, strHasPre p ("People Involved: " ++ t) = false)
    (h12 : r.situation_analysis.entities.organizations ≠ [] →
      ∀ t, strHasPre p ("Organizations: " ++ t) = false)
    (h13 : r.legal_analysis.contradictions ≠ [] →
      (∀ t, strHasPre p ("\nCONTRADICTIONS DETECTED: " ++ t) = false) ∧
      (∀ t, strHasPre p ("  " ++ t) = false))
    (h14 : r.legal_analysis.legal_risks ≠ [] →
      (∀ t, strHasPre p ("\nLEGAL RISKS IDENTIFIED: " ++ t) = false) ∧
      (∀ t, strHasPre p ("  - " ++ t) = false))
    (h15 : r.recommendations.immediate_actions ≠ [] →
      strHasPre p "\nIMMEDIATE ACTIONS REQUIRED:" = false ∧
      (∀ t, strHasPre p ("  • " ++ t) = false))
    (h16 : r.recommendations.warnings ≠ [] →
      strHasPre p "\nWARNINGS:" = false ∧
      (∀ t, strHasPre p ("  ⚠️  " ++ t) = false))
    (h17 : r.remedy.legal_strategies ≠ [] →
      strHasPre p "\nRECOMMENDED LEGAL STRATEGIES:" = false ∧
      (∀ t, strHasPre p ("  • " ++ t) = false)) :
    ∀ line ∈ print_analysis_summary r, strHasPre p line = false := by
  intro line hline
  unfold print_analysis_summary at hline
  simp only [List.mem_append, or_assoc] at hline
  rcases hline with hA | hB | hC | hD | hE | hF | hG | hH | hI | hJ
  · simp only [List.mem_cons, List.not_mem_nil, or_false] at hA
    rcases hA with rfl | rfl | rfl | rfl | rfl | rfl | rfl | rfl | rfl
    · exact h1
    · exact h2
    · exact h3
    · exact h4 _
    · exact h5 _
    · exact h6 _
    · exact h7 _
    · exact h8 _
    · exact h9 _
  · obtain ⟨hg, hm⟩ := (mem_ite_nil _ _ _).mp hB
    simp only [List.mem_singleton] at hm
    subst hm
    exact h10 hg _
  · obtain ⟨hg, hm⟩ := (mem_ite_nil _ _ _).mp hC
    simp only [List.mem_singleton] at hm
    subst hm
    exact h11 hg _
  · obtain ⟨hg, hm⟩ := (mem_ite_nil _ _ _).mp hD
    simp only [List.mem_singleton] at hm
    subst hm
    exact h12 hg _
  · unfold contradiction_section at hE
    obtain ⟨hg, hm⟩ := (mem_ite_nil _ _ _).mp hE
    rcases List.mem_cons.mp hm with rfl | hitem
    · exact (h13 hg).1 _
    · obtain ⟨t, rfl⟩ := contradiction_item_lines_shape 1 _ line hitem
      exact (h13 hg).2 t
  · unfold risk_section at hF
    obtain ⟨hg, hm⟩ := (mem_ite_nil _ _ _).mp hF
    rcases List.mem_cons.mp hm with rfl | hitem
    · exact (h14 hg).1 _
    · obtain ⟨k, hk, rfl⟩ := List.mem_map.mp hitem
      exact (h14 hg).2 _
  · unfold immediate_section at hG
    obtain ⟨hg, hm⟩ := (mem_ite_nil _ _ _).mp hG
    rcases List.mem_cons.mp hm with rfl | hitem
    · exact (h15 hg).1
    · obtain ⟨a, ha, rfl⟩ := List.mem_map.mp hitem
      exact (h15 hg).2 _
  · unfold warning_section at hH
    obtain ⟨hg, hm⟩ := (mem_ite_nil _ _ _).mp hH
    rcases List.mem_cons.mp hm with rfl | hitem
    · exact (h16 hg).1
    · obtain ⟨a, ha, rfl⟩ := List.mem_map.mp hitem
      exact (h16 hg).2 _
  · unfold strategy_section at hI
    obtain ⟨hg, hm⟩ := (mem_ite_nil _ _ _).mp hI
    rcases List.mem_cons.mp hm with rfl | hitem
    · exact (h17 hg).1
    · obtain ⟨a, ha, rfl⟩ := List.mem_map.mp hitem
      exact (h17 hg).2 _
  · simp only [List.mem_singleton] at hJ
    subst hJ
    exact h1

/-- C8: for any analysis record, whenever one of the optional fields
(secondary jurisdictions, people, organizations, contradictions, legal risks,
immediate actions, warnings, legal strategies) is empty, the printed summary
— which is total, hence always succeeds — contains no line that starts with
the corresponding section header: the section is omitted entirely. -/
theorem C8_empty_fields_omit_sections {Clause Tone Structure Ctx : Type}
    (r : AnalysisResult Clause Tone Structure Ctx) :
    (r.situation_analysis.jurisdiction.secondary = [] →
      ∀ line ∈ print_analysis_summary r,
        strHasPre "Secondary Jurisdictions:" line = false) ∧
    (r.situation_analysis.entities.people = [] →
      ∀ line ∈ print_analysis_summary r,
        strHasPre "People Involved:" line = false) ∧
    (r.situation_analysis.entities.organizations = [] →
      ∀ line ∈ print_analysis_summary r,
        strHasPre "Organizations:" line = false) ∧
    (r.legal_analysis.contradictions = [] →
      ∀ line ∈ print_analysis_summary r,
        strHasPre "\nCONTRADICTIONS DETECTED:" line = false) ∧
    (r.legal_analysis.legal_risks = [] →
      ∀ line ∈ print_analysis_summary r,
        strHasPre "\nLEGAL RISKS IDENTIFIED:" line = false) ∧
    (r.recommendations.immediate_actions = [] →
      ∀ line ∈ print_analysis_summary r,
        strHasPre "\nIMMEDIATE ACTIONS REQUIRED:" line = false) ∧
    (r.recommendations.warnings = [] →
      ∀ line ∈ print_analysis_summary r,
        strHasPre "\nWARNINGS:" line = false) ∧
    (r.remedy.legal_strategies = [] →
      ∀ line ∈ print_analysis_summary r,
        strHasPre "\nRECOMMENDED LEGAL STRATEGIES:" line = false) := by
  refine ⟨?_, ?_, ?_, ?_, ?_, ?_, ?_, ?_⟩ <;> intro hemp
  · exact print_summary_line_free r _ (by decide) (by decide) (by decide)
      (fun t => strHasPre_append_false _ _ _ (by decide) (by decide))
      (fun t => strHasPre_append_false _ _ _ (by decide) (by decide))
      (fun t => strHasPre_append_false _ _ _ (by decide) (by decide))
      (fun t => strHasPre_append_false _ _ _ (by decide) (by decide))
      (fun t => strHasPre_append_false _ _ _ (by decide) (by decide))
      (fun t => strHasPre_append_false _ _ _ (by decide) (by decide))
      (fun hne => absurd hemp hne)
      (fun _ t => strHasPre_append_false _ _ _ (by decide) (by decide))
      (fun _ t => strHasPre_append_false _ _ _ (by decide) (by decide))
      (fun _ => ⟨fun t => strHasPre_append_false _ _ _ (by decide) (by decide),
                 fun t => strHasPre_append_false _ _ _ (by decide) (by decide)⟩)
      (fun _ => ⟨fun t => strHasPre_append_false _ _ _ (by decide) (by decide),
                 fun t => strHasPre_append_false _ _ _ (by decide) (by decide)⟩)
      (fun _ => ⟨by decide, fun t => strHasPre_append_false _ _ _ (by decide) (by decide)⟩)
      (fun _ => ⟨by decide, fun t => strHasPre_append_false _ _ _ (by decide) (by decide)⟩)
      (fun _ => ⟨by decide, fun t => strHasPre_append_false _ _ _ (by decide) (by decide)⟩)
  · exact print_summary_line_free r _ (by decide) (by decide) (by decide)
      (fun t => strHasPre_append_false _ _ _ (by decide) (by decide))
      (fun t => strHasPre_append_false _ _ _ (by decide) (by decide))
      (fun t => strHasPre_append_false _ _ _ (by decide) (by decide))
      (fun t => strHasPre_append_false _ _ _ (by decide) (by decide))
      (fun t => strHasPre_append_false _ _ _ (by decide) (by decide))
      (fun t => strHasPre_append_false _ _ _ (by decide) (by decide))
      (fun _ t => strHasPre_append_false _ _ _ (by decide) (by decide))
      (fun hne => absurd hemp hne)
      (fun _ t => strHasPre_append_false _ _ _ (by decide) (by decide))
      (fun _ => ⟨fun t => strHasPre_append_false _ _ _ (by decide) (by decide),
                 fun t => strHasPre_append_false _ _ _ (by decide) (by decide)⟩)
      (fun _ => ⟨fun t => strHasPre_append_false _ _ _ (by decide) (by decide),
                 fun t => strHasPre_append_false _ _ _ (by decide) (by decide)⟩)
      (fun _ => ⟨by decide, fun t => strHasPre_append_false _ _ _ (by decide) (by decide)⟩)
      (fun _ => ⟨by decide, fun t => strHasPre_append_false _ _ _ (by decide) (by decide)⟩)
      (fun _ => ⟨by decide, fun t => strHasPre_append_false _ _ _ (by decide) (by decide)⟩)
  · exact print_summary_line_free r _ (by decide) (by decide) (by decide)
      (fun t => strHasPre_append_false _ _ _ (by decide) (by decide))
      (fun t => strHasPre_append_false _ _ _ (by decide) (by decide))
      (fun t => strHasPre_append_false _ _ _ (by decide) (by decide))
      (fun t => strHasPre_append_false _ _ _ (by decide) (by decide))
      (fun t => strHasPre_append_false _ _ _ (by decide) (by decide))
      (fun t => strHasPre_append_false _ _ _ (by decide) (by decide))
      (fun _ t => strHasPre_append_false _ _ _ (by decide) (by decide))
      (fun _ t => strHasPre_append_false _ _ _ (by decide) (by decide))
      (fun hne => absurd hemp hne)
      (fun _ => ⟨fun t => strHasPre_append_false _ _ _ (by decide) (by decide),
                 fun t => strHasPre_append_false _ _ _ (by decide) (by decide)⟩)
      (fun _ => ⟨fun t => strHasPre_append_false _ _ _ (by decide) (by decide),
                 fun t => strHasPre_append_false _ _ _ (by decide) (by decide)⟩)
      (fun _ => ⟨by decide, fun t => strHasPre_append_false _ _ _ (by decide) (by decide)⟩)
      (fun _ => ⟨by decide, fun t => strHasPre_append_false _ _ _ (by decide) (by decide)⟩)
      (fun _ => ⟨by decide, fun t => strHasPre_append_false _ _ _ (by decide) (by decide)⟩)
  · exact print_summary_line_free r _ (by decide) (by decide) (by decide)
      (fun t => strHasPre_append_false _ _ _ (by decide) (by decide))
      (fun t => strHasPre_append_false _ _ _ (by decide) (by decide))
      (fun t => strHasPre_append_false _ _ _ (by decide) (by decide))
      (fun t => strHasPre_append_false _ _ _ (by decide) (by decide))
      (fun t => strHasPre_append_false _ _ _ (by decide) (by decide))
      (fun t => strHasPre_append_false _ _ _ (by decide) (by decide))
      (fun _ t => strHasPre_append_false _ _ _ (by decide) (by decide))
      (fun _ t => strHasPre_append_false _ _ _ (by decide) (by decide))
      (fun _ t => strHasPre_append_false _ _ _ (by decide) (by decide))
      (fun hne => absurd hemp hne)
      (fun _ => ⟨fun t => strHasPre_append_false _ _ _ (by decide) (by decide),
                 fun t => strHasPre_append_false _ _ _ (by decide) (by decide)⟩)
      (fun _ => ⟨by decide, fun t => strHasPre_append_false _ _ _ (by decide) (by decide)⟩)
      (fun _ => ⟨by decide, fun t => strHasPre_append_false _ _ _ (by decide) (by decide)⟩)
      (fun _ => ⟨by decide, fun t => strHasPre_append_false _ _ _ (by decide) (by decide)⟩)
  · exact print_summary_line_free r _ (by decide) (by decide) (by decide)
      (fun t => strHasPre_append_false _ _ _ (by decide) (by decide))
      (fun t => strHasPre_append_false _ _ _ (by decide) (by decide))
      (fun t => strHasPre_append_false _ _ _ (by decide) (by decide))
      (fun t => strHasPre_append_false _ _ _ (by decide) (by decide))
      (fun t => strHasPre_append_false _ _ _ (by decide) (by decide))
      (fun t => strHasPre_append_false _ _ _ (by decide) (by decide))
      (fun _ t => strHasPre_append_false _ _ _ (by decide) (by decide))
      (fun _ t => strHasPre_append_false _ _ _ (by decide) (by decide))
      (fun _ t => strHasPre_append_false _ _ _ (by decide) (by decide))
      (fun _ => ⟨fun t => strHasPre_append_false _ _ _ (by decide) (by decide),
                 fun t => strHasPre_append_false _ _ _ (by decide) (by decide)⟩)
      (fun hne => absurd hemp hne)
      (fun _ => ⟨by decide, fun t => strHasPre_append_false _ _ _ (by decide) (by decide)⟩)
      (fun _ => ⟨by decide, fun t => strHasPre_append_false _ _ _ (by decide) (by decide)⟩)
      (fun _ => ⟨by decide, fun t => strHasPre_append_false _ _ _ (by decide) (by decide)⟩)
  · exact print_summary_line_free r _ (by decide) (by decide) (by decide)
      (fun t => strHasPre_append_false _ _ _ (by decide) (by decide))
      (fun t => strHasPre_append_false _ _ _ (by decide) (by decide))
      (fun t => strHasPre_append_false _ _ _ (by decide) (by decide))
      (fun t => strHasPre_append_false _ _ _ (by decide) (by decide))
      (fun t => strHasPre_append_false _ _ _ (by decide) (by decide))
      (fun t => strHasPre_append_false _ _ _ (by decide) (by decide))
      (fun _ t => strHasPre_append_false _ _ _ (by decide) (by decide))
      (fun _ t => strHasPre_append_false _ _ _ (by decide) (by decide))
      (fun _ t => strHasPre_append_false _ _ _ (by decide) (by decide))
      (fun _ => ⟨fun t => strHasPre_append_false _ _ _ (by decide) (by decide),
                 fun t => strHasPre_append_false _ _ _ (by decide) (by decide)⟩)
      (fun _ => ⟨fun t => strHasPre_append_false _ _ _ (by decide) (by decide),
                 fun t => strHasPre_append_false _ _ _ (by decide) (by decide)⟩)
      (fun hne => absurd hemp hne)
      (fun _ => ⟨by decide, fun t => strHasPre_append_false _ _ _ (by decide) (by decide)⟩)
      (fun _ => ⟨by decide, fun t => strHasPre_append_false _ _ _ (by decide) (by decide)⟩)
  · exact print_summary_line_free r _ (by decide) (by decide) (by decide)
      (fun t => strHasPre_append_false _ _ _ (by decide) (by decide))
      (fun t => strHasPre_append_false _ _ _ (by decide) (by decide))
      (fun t => strHasPre_append_false _ _ _ (by decide) (by decide))
      (fun t => strHasPre_append_false _ _ _ (by decide) (by decide))
      (fun t => strHasPre_append_false _ _ _ (by decide) (by decide))
      (fun t => strHasPre_append_false _ _ _ (by decide) (by decide))
      (fun _ t => strHasPre_append_false _ _ _ (by decide) (by decide))
      (fun _ t => strHasPre_append_false _ _ _ (by decide) (by decide))
      (fun _ t => strHasPre_append_false _ _ _ (by decide) (by decide))
      (fun _ => ⟨fun t => strHasPre_append_false _ _ _ (by decide) (by decide),
                 fun t => strHasPre_append_false _ _ _ (by decide) (by decide)⟩)
      (fun _ => ⟨fun t => strHasPre_append_false _ _ _ (by decide) (by decide),
                 fun t => strHasPre_append_false _ _ _ (by decide) (by decide)⟩)
      (fun _ => ⟨by decide, fun t => strHasPre_append_false _ _ _ (by decide) (by decide)⟩)
      (fun hne => absurd hemp hne)
      (fun _ => ⟨by decide, fun t => strHasPre_append_false _ _ _ (by decide) (by decide)⟩)
  · exact print_summary_line_free r _ (by decide) (by decide) (by decide)
      (fun t => strHasPre_append_false _ _ _ (by decide) (by decide))
      (fun t => strHasPre_append_false _ _ _ (by decide) (by decide))
      (fun t => strHasPre_append_false _ _ _ (by decide) (by decide))
      (fun t => strHasPre_append_false _ _ _ (by decide) (by decide))
      (fun t => strHasPre_append_false _ _ _ (by decide) (by decide))
      (fun t => strHasPre_append_false _ _ _ (by decide) (by decide))
      (fun _ t => strHasPre_append_false _ _ _ (by decide) (by decide))
      (fun _ t => strHasPre_append_false _ _ _ (by decide) (by decide))
      (fun _ t => strHasPre_append_false _ _ _ (by decide) (by decide))
      (fun _ => ⟨fun t => strHasPre_append_false _ _ _ (by decide) (by decide),
                 fun t => strHasPre_append_false _ _ _ (by decide) (by decide)⟩)
      (fun _ => ⟨fun t => strHasPre_append_false _ _ _ (by decide) (by decide),
                 fun t => strHasPre_append_false _ _ _ (by decide) (by decide)⟩)
      (fun _ => ⟨by decide, fun t => strHasPre_append_false _ _ _ (by decide) (by decide)⟩)
      (fun _ => ⟨by decide, fun t => strHasPre_append_false _ _ _ (by decide) (by decide)⟩)
      (fun hne => absurd hemp hne)

/-- A fully-empty concrete analysis record for the C8 witness. -/
def exampleEmptyResult : AnalysisResult String Unit Unit Unit :=
  { session_id := "20250101_000000",
    timestamp := "2025-01-01T00:00:00",
    input_raw_text := "",
    input_context := none,
    situation_analysis :=
      { type := "unknown",
        urgency := { level := "low", rationale := "" },
        jurisdiction := { primary := "common", secondary := [] },
        entities := { people := [], organizations := [] },
        legal_framework := "" },
    legal_analysis :=
      { clauses := [], contradictions := [], legal_structure := (),
        tone_analysis := (), legal_risks := [],
        legal_summary := { risk_level := "LOW", tone_summary := "neutral" } },
    remedy := { contradictions := [], legal_strategies := [] },
    recommendations :=
      { immediate_actions := [], short_term_actions := [], long_term_actions := [],
        warnings := [], opportunities := [] } }

/-- Witness for C8: on a record with every optional field empty, the title
line of the printed report starts with none of the eight section headers. -/
theorem C8_empty_fields_omit_sections_witness :
    strHasPre "Secondary Jurisdictions:" "VEROBRIX LEGAL ANALYSIS SUMMARY" = false ∧
    strHasPre "People Involved:" "VEROBRIX LEGAL ANALYSIS SUMMARY" = false ∧
    strHasPre "Organizations:" "VEROBRIX LEGAL ANALYSIS SUMMARY" = false ∧
    strHasPre "\nCONTRADICTIONS DETECTED:" "VEROBRIX LEGAL ANALYSIS SUMMARY" = false ∧
    strHasPre "\nLEGAL RISKS IDENTIFIED:" "VEROBRIX LEGAL ANALYSIS SUMMARY" = false ∧
    strHasPre "\nIMMEDIATE ACTIONS REQUIRED:" "VEROBRIX LEGAL ANALYSIS SUMMARY" = false ∧
    strHasPre "\nWARNINGS:" "VEROBRIX LEGAL ANALYSIS SUMMARY" = false ∧
    strHasPre "\nRECOMMENDED LEGAL STRATEGIES:" "VEROBRIX LEGAL ANALYSIS SUMMARY" = false :=
  ⟨(C8_empty_fields_omit_sections exampleEmptyResult).1 rfl _ (by decide),
   (C8_empty_fields_omit_sections exampleEmptyResult).2.1 rfl _ (by decide),
   (C8_empty_fields_omit_sections exampleEmptyResult).2.2.1 rfl _ (by decide),
   (C8_empty_fields_omit_sections exampleEmptyResult).2.2.2.1 rfl _ (by decide),
   (C8_empty_fields_omit_sections exampleEmptyResult).2.2.2.2.1 rfl _ (by decide),
   (C8_empty_fields_omit_sections exampleEmptyResult).2.2.2.2.2.1 rfl _ (by decide),
   (C8_empty_fields_omit_sections exampleEmptyResult).2.2.2.2.2.2.1 rfl _ (by decide),
   (C8_empty_fields_omit_sections exampleEmptyResult).2.2.2.2.2.2.2 rfl _ (by decide)⟩

/-! ### clean_html (`clean_html.py`)

The cleaner is modelled on `List Char`, the character sequence of the Python
string.  The two regex substitutions are rendered as explicit left-to-right
scanners with the same semantics:
`re.sub(r'<(script|style).*?>.*?</\1>', '', text, flags=re.DOTALL)` removes,
from each `<script`/`<style` start, through the first following `>` and then
through the first following closing tag; `re.sub(r'<.*?>', '', text)` (no
DOTALL) removes from each `<` through the first following `>` provided no
newline intervenes. -/

/-- Scan to the first `'>'`, failing at a newline or the end (the non-DOTALL
`<.*?>` match); returns the remainder after the `'>'`. -/
def findGtBeforeNl : List Char → Option (List Char)
  | [] => none
  | c :: rest =>
    if c = '>' then some rest
    else if c = '\n' then none
    else findGtBeforeNl rest

theorem findGtBeforeNl_length :
    ∀ (l r : List Char), findGtBeforeNl l = some r → r.length < l.length := by
  intro l
  induction l with
  | nil => intro r h; simp [findGtBeforeNl] at h
  | cons c rest ih =>
    intro r h
    simp only [findGtBeforeNl] at h
    split at h
    · simp only [Option.some.injEq] at h
      subst h
      simp [List.length_cons]
    · split at h
      · exact absurd h (by simp)
      · have := ih r h
        simp only [List.length_cons]
        omega

/-- `re.sub(r'<.*?>', '', text)`: at each `'<'` with a `'>'` before the next
newline, drop through that `'>'`; otherwise the `'<'` stays and scanning
continues. -/
def removeTags : List Char → List Char
  | [] => []
  | c :: rest =>
    if c = '<' then
      match _h : findGtBeforeNl rest with
      | some r => removeTags r
      | none => c :: removeTags rest
    else c :: removeTags rest
termination_by l => l.length
decreasing_by
  all_goals simp only [List.length_cons]
  all_goals first
    | exact Nat.lt_succ_of_lt (findGtBeforeNl_length _ _ (by assumption))
    | omega

/-- Scan to the first `'>'` (any characters before it, DOTALL); returns the
remainder after it. -/
def findGtAny : List Char → Option (List Char)
  | [] => none
  | c :: rest => if c = '>' then some rest else findGtAny rest

theorem findGtAny_length :
    ∀ (l r : List Char), findGtAny l = some r → r.length < l.length := by
  intro l
  induction l with
  | nil => intro r h; simp [findGtAny] at h
  | cons c rest ih =>
    intro r h
    simp only [findGtAny] at h
    split at h
    · simp only [Option.some.injEq] at h
      subst h
      simp [List.length_cons]
    · have := ih r h
      simp only [List.length_cons]
      omega

/-- Scan to the first occurrence of the pattern `c0 :: ctag` as a contiguous
substring; returns the remainder after that occurrence. -/
def findCloseTag (c0 : Char) (ctag : List Char) : List Char → Option (List Char)
  | [] => none
  | c :: rest =>
    if (c0 :: ctag).isPrefixOf (c :: rest) then some ((c :: rest).drop (c0 :: ctag).length)
    else findCloseTag c0 ctag rest

theorem findCloseTag_length (c0 : Char) (ctag : List Char) :
    ∀ (l r : List Char), findCloseTag c0 ctag l = some r → r.length < l.length := by
  intro l
  induction l with
  | nil => intro r h; simp [findCloseTag] at h
  | cons c rest ih =>
    intro r h
    simp only [findCloseTag] at h
    split at h
    · simp only [Option.some.injEq] at h
      subst h
      simp only [List.length_drop, List.length_cons]
      omega
    · have := ih r h
      simp only [List.length_cons]
      omega

/-- Completion of a `<script`/`<style` match: `.*?>` takes everything through
the first `'>'`, then `.*?</tag>` takes everything through the first
`"</" ++ tag ++ ">"`; `none` when the pattern cannot complete. -/
def scriptClose (tag : String) (l : List Char) : Option (List Char) :=
  match findGtAny l with
  | none => none
  | some afterGt => findCloseTag '<' ('/' :: (tag.data ++ ['>'])) afterGt

theorem scriptClose_length (tag : String) (l r : List Char)
    (h : scriptClose tag l = some r) : r.length < l.length := by
  unfold scriptClose at h
  cases hg : findGtAny l with
  | none => rw [hg] at h; exact absurd h (by simp)
  | some afterGt =>
    rw [hg] at h
    have h1 := findGtAny_length l afterGt hg
    have h2 := findCloseTag_length _ _ afterGt r h
    omega

/-- `re.sub(r'<(script|style).*?>.*?</\1>', '', text, flags=re.DOTALL)`:
at each `'<'` followed by `script` or `style` whose match can complete, drop
the whole match; otherwise the character stays and scanning continues. -/
def removeScriptStyle : List Char → List Char
  | [] => []
  | c :: rest =>
    if c = '<' ∧ ("script".data.isPrefixOf rest ∨ "style".data.isPrefixOf rest) then
      match _h : scriptClose (if "script".data.isPrefixOf rest then "script" else "style") rest with
      | some r => removeScriptStyle r
      | none => c :: removeScriptStyle rest
    else c :: removeScriptStyle rest
termination_by l => l.length
decreasing_by
  all_goals simp only [List.length_cons]
  all_goals first
    | exact Nat.lt_succ_of_lt (scriptClose_length _ _ _ (by assumption))
    | omega

/-- One sequential `str.replace(pat, rep)` pass, the pattern being
`p :: ps` (non-empty by construction). -/
def replaceFrom (p : Char) (ps rep : List Char) : List Char → List Char
  | [] => []
  | c :: rest =>
    if c = p ∧ ps.isPrefixOf rest then rep ++ replaceFrom p ps rep (rest.drop ps.length)
    else c :: replaceFrom p ps rep rest
termination_by l => l.length
decreasing_by
  all_goals simp only [List.length_cons, List.length_drop]
  all_goals omega

/-- The five sequential entity replacements of `clean_html` (lines 10-14), in
source order. -/
def decodeEntities (l : List Char) : List Char :=
  let t := replaceFrom '&' "amp;".data "&".data l
  let t := replaceFrom '&' "lt;".data "<".data t
  let t := replaceFrom '&' "gt;".data ">".data t
  let t := replaceFrom '&' "quot;".data "\"".data t
  replaceFrom '&' "#39;".data "'".data t

/-- Python's default `str.strip()` whitespace set (ASCII portion). -/
def isPySpace (c : Char) : Bool :=
  c == ' ' || c == '\t' || c == '\n' || c == '\r' || c == '\x0b' || c == '\x0c'

/-- Python's `str.strip()`: drop whitespace from the front, then from the
back (via reversal). -/
def pyStrip (l : List Char) : List Char :=
  ((l.dropWhile isPySpace).reverse.dropWhile isPySpace).reverse

/-- Split at every `'\n'`, keeping empty pieces (so the result is never
empty). -/
def splitNl : List Char → List (List Char)
  | [] => [[]]
  | c :: rest =>
    if c = '\n' then [] :: splitNl rest
    else
      match splitNl rest with
      | [] => [[c]]
      | p :: ps => (c :: p) :: ps

/-- Python's `str.splitlines()` restricted to `'\n'` boundaries: like
`splitNl` but without a trailing empty piece (in particular
`splitlines('') = []`). -/
def pySplitlines (l : List Char) : List (List Char) :=
  let ps := splitNl l
  if ps.getLast? = some [] then ps.dropLast else ps

/-- `'\n'.join(...)` on character lists. -/
def joinNl : List (List Char) → List Char
  | [] => []
  | [p] => p
  | p :: ps => p ++ '\n' :: joinNl ps

/-- `clean_html` (lines 4-17 of `clean_html.py`): strip script/style blocks,
strip the remaining tags, decode the five entities, then rebuild the text
from the stripped non-blank lines. -/
def clean_html (html : List Char) : List Char :=
  joinNl (((pySplitlines (decodeEntities (removeTags (removeScriptStyle html)))).map
    pyStrip).filter (fun line => !line.isEmpty))

/-! ### Whitespace lemmas for C10 -/

theorem mem_of_mem_dropWhile {α : Type} (p : α → Bool) (l : List α) (a : α)
    (h : a ∈ l.dropWhile p) : a ∈ l := by
  induction l with
  | nil => simp at h
  | cons x rest ih =>
    rw [List.dropWhile_cons] at h
    split at h
    · exact List.mem_cons_of_mem x (ih h)
    · exact h

theorem dropWhile_head_not {α : Type} (p : α → Bool) (l : List α) (c : α)
    (h : (l.dropWhile p).head? = some c) : p c = false := by
  induction l with
  | nil => simp [List.dropWhile] at h
  | cons x rest ih =>
    rw [List.dropWhile_cons] at h
    split at h
    · exact ih h
    · next hx =>
      simp only [List.head?_cons, Option.some.injEq] at h
      subst h
      simp only [Bool.not_eq_true] at hx
      exact hx

theorem getLast?_dropWhile_of_ne_nil {α : Type} (p : α → Bool) (l : List α)
    (h : l.dropWhile p ≠ []) : (l.dropWhile p).getLast? = l.getLast? := by
  induction l with
  | nil => simp [List.dropWhile] at h
  | cons x rest ih =>
    by_cases hp : p x = true
    · rw [List.dropWhile_cons, if_pos hp] at h ⊢
      cases rest with
      | nil => simp [List.dropWhile] at h
      | cons y t =>
        rw [ih h, List.getLast?_cons_cons]
    · rw [List.dropWhile_cons, if_neg hp]

theorem head_not_dropWhile_eq_self {α : Type} (p : α → Bool) (l : List α)
    (h : ∀ c, l.head? = some c → p c = false) : l.dropWhile p = l := by
  cases l with
  | nil => rfl
  | cons x rest =>
    have hx := h x rfl
    rw [List.dropWhile_cons, if_neg (by simp [hx])]

theorem pyStrip_head_not (l : List Char) (c : Char)
    (h : (pyStrip l).head? = some c) : isPySpace c = false := by
  unfold pyStrip at h
  rw [List.head?_reverse] at h
  have hne : (l.dropWhile isPySpace).reverse.dropWhile isPySpace ≠ [] := by
    intro hc
    rw [hc] at h
    simp at h
  rw [getLast?_dropWhile_of_ne_nil _ _ hne, List.getLast?_reverse] at h
  exact dropWhile_head_not _ _ _ h

theorem pyStrip_last_not (l : List Char) (c : Char)
    (h : (pyStrip l).getLast? = some c) : isPySpace c = false := by
  unfold pyStrip at h
  rw [List.getLast?_reverse] at h
  exact dropWhile_head_not _ _ _ h

theorem pyStrip_eq_self (l : List Char)
    (hh : ∀ c, l.head? = some c → isPySpace c = false)
    (hl : ∀ c, l.getLast? = some c → isPySpace c = false) :
    pyStrip l = l := by
  unfold pyStrip
  rw [head_not_dropWhile_eq_self _ l hh]
  rw [head_not_dropWhile_eq_self _ l.reverse
    (fun c hc => hl c (by rwa [List.head?_reverse] at hc))]
  exact List.reverse_reverse l

/-- `str.strip()` is idempotent: a stripped line keeps no leading or trailing
whitespace. -/
theorem pyStrip_idem (l : List Char) : pyStrip (pyStrip l) = pyStrip l :=
  pyStrip_eq_self _ (pyStrip_head_not l) (pyStrip_last_not l)

theorem mem_pyStrip (l : List Char) (a : Char) (h : a ∈ pyStrip l) : a ∈ l := by
  unfold pyStrip at h
  rw [List.mem_reverse] at h
  have h1 := mem_of_mem_dropWhile _ _ _ h
  rw [List.mem_reverse] at h1
  exact mem_of_mem_dropWhile _ _ _ h1

theorem splitNl_ne_nil (l : List Char) : splitNl l ≠ [] := by
  induction l with
  | nil => simp [splitNl]
  | cons c rest ih =>
    simp only [splitNl]
    split
    · simp
    · split
      · simp
      · simp

theorem splitNl_no_nl (l : List Char) : ∀ p ∈ splitNl l, '\n' ∉ p := by
  induction l with
  | nil =>
    intro p hp
    simp only [splitNl, List.mem_singleton] at hp
    subst hp
    simp
  | cons c rest ih =>
    intro p hp
    simp only [splitNl] at hp
    by_cases hc : c = '\n'
    · rw [if_pos hc] at hp
      rcases List.mem_cons.mp hp with rfl | hp'
      · simp
      · exact ih p hp'
    · rw [if_neg hc] at hp
      cases hr : splitNl rest with
      | nil => exact absurd hr (splitNl_ne_nil rest)
      | cons q qs =>
        rw [hr] at hp
        rcases List.mem_cons.mp hp with rfl | hp'
        · intro hmem
          rcases List.mem_cons.mp hmem with h1 | h1
          · exact hc h1.symm
          · exact ih q (by rw [hr]; exact List.mem_cons_self q qs) h1
        · exact ih p (by rw [hr]; exact List.mem_cons_of_mem q hp')

theorem mem_of_mem_dropLast {α : Type} (l : List α) (a : α)
    (h : a ∈ l.dropLast) : a ∈ l := by
  induction l with
  | nil => simp at h
  | cons x rest ih =>
    cases rest with
    | nil => simp [List.dropLast] at h
    | cons y t =>
      rw [show (x :: y :: t).dropLast = x :: (y :: t).dropLast from rfl] at h
      rcases List.mem_cons.mp h with rfl | h'
      · exact List.mem_cons_self _ _
      · exact List.mem_cons_of_mem _ (ih h')

theorem mem_pySplitlines (l : List Char) (p : List Char)
    (h : p ∈ pySplitlines l) : p ∈ splitNl l := by
  simp only [pySplitlines] at h
  split at h
  · exact mem_of_mem_dropLast _ _ h
  · exact h

theorem splitNl_single (p : List Char) (h : '\n' ∉ p) : splitNl p = [p] := by
  induction p with
  | nil => rfl
  | cons c rest ih =>
    have hc : ¬(c = '\n') := fun hc => h (hc ▸ List.mem_cons_self c rest)
    simp only [splitNl, if_neg hc]
    rw [ih (fun hm => h (List.mem_cons_of_mem c hm))]

theorem splitNl_append (p t : List Char) (h : '\n' ∉ p) :
    splitNl (p ++ '\n' :: t) = p :: splitNl t := by
  induction p with
  | nil => simp [splitNl]
  | cons c p' ih =>
    have hc : ¬(c = '\n') := fun hc => h (hc ▸ List.mem_cons_self c p')
    simp only [List.cons_append, splitNl, if_neg hc]
    rw [show p'.append ('\n' :: t) = p' ++ '\n' :: t from rfl]
    rw [ih (fun hm => h (List.mem_cons_of_mem c hm))]

theorem getLast?_mem {α : Type} (l : List α) (a : α)
    (h : l.getLast? = some a) : a ∈ l := by
  induction l with
  | nil => simp at h
  | cons x rest ih =>
    cases rest with
    | nil =>
      simp only [List.getLast?_singleton, Option.some.injEq] at h
      subst h
      exact List.mem_cons_self _ _
    | cons y t =>
      rw [List.getLast?_cons_cons] at h
      exact List.mem_cons_of_mem _ (ih h)

theorem splitNl_joinNl :
    ∀ (ps : List (List Char)), ps ≠ [] → (∀ p ∈ ps, '\n' ∉ p) →
      splitNl (joinNl ps) = ps := by
  intro ps
  induction ps with
  | nil => intro hne _; exact absurd rfl hne
  | cons p rest ih =>
    intro _ h
    cases rest with
    | nil =>
      rw [show joinNl [p] = p from rfl]
      exact splitNl_single p (h p (List.mem_cons_self _ _))
    | cons q t =>
      rw [show joinNl (p :: q :: t) = p ++ '\n' :: joinNl (q :: t) from rfl]
      rw [splitNl_append p _ (h p (List.mem_cons_self _ _))]
      rw [ih (by simp) (fun x hx => h x (List.mem_cons_of_mem _ hx))]

theorem pySplitlines_joinNl (ps : List (List Char))
    (h : ∀ p ∈ ps, p ≠ [] ∧ '\n' ∉ p) : pySplitlines (joinNl ps) = ps := by
  cases ps with
  | nil => decide
  | cons p rest =>
    unfold pySplitlines
    rw [splitNl_joinNl (p :: rest) (by simp) (fun x hx => (h x hx).2)]
    rw [if_neg]
    intro hlast
    have hmem := getLast?_mem _ _ hlast
    exact (h [] hmem).1 rfl

/-- C10: every line of the text returned by `clean_html` is non-empty and is
a fixed point of stripping — it carries no leading or trailing whitespace;
in particular the output contains no blank line. -/
theorem C10_clean_html_lines_stripped (html : List Char) :
    ∀ line ∈ pySplitlines (clean_html html), line ≠ [] ∧ pyStrip line = line := by
  intro line hline
  unfold clean_html at hline
  have hfacts : ∀ p ∈ ((pySplitlines (decodeEntities (removeTags
      (removeScriptStyle html)))).map pyStrip).filter (fun x => !x.isEmpty),
      p ≠ [] ∧ '\n' ∉ p := by
    intro p hp
    obtain ⟨hpmem, hppred⟩ := List.mem_filter.mp hp
    obtain ⟨q, hq, rfl⟩ := List.mem_map.mp hpmem
    refine ⟨?_, ?_⟩
    · intro hc
      rw [hc] at hppred
      simp at hppred
    · intro hnl
      exact splitNl_no_nl _ q (mem_pySplitlines _ _ hq) (mem_pyStrip q '\n' hnl)
  rw [pySplitlines_joinNl _ hfacts] at hline
  obtain ⟨hmem, hpred⟩ := List.mem_filter.mp hline
  obtain ⟨q, hq, rfl⟩ := List.mem_map.mp hmem
  refine ⟨?_, pyStrip_idem q⟩
  intro hc
  rw [hc] at hpred
  simp at hpred

/-- Witness for C10 on a concrete HTML input. -/
theorem C10_clean_html_lines_stripped_witness :
    "hello".data ≠ ([] : List Char) ∧ pyStrip "hello".data = "hello".data := by
  apply C10_clean_html_lines_stripped "<p> hello </p>\n  ".data
  have hcomp : clean_html "<p> hello </p>\n  ".data = "hello".data := by
    rw [show "<p> hello </p>\n  ".data =
      ['<', 'p', '>', ' ', 'h', 'e', 'l', 'l', 'o', ' ', '<', '/', 'p', '>', '\n', ' ', ' ']
      from rfl]
    simp [clean_html, removeScriptStyle, removeTags, decodeEntities, replaceFrom,
      findGtBeforeNl, findGtAny, findCloseTag, scriptClose, pySplitlines, splitNl,
      pyStrip, joinNl, isPySpace, List.isPrefixOf, List.dropWhile]
  rw [hcomp]
  decide
